import Mathlib

/-!
Verification development for the Metrics Engine of the Scrum QA dashboard
(`src/modules/calculator.py`, class `MetricsCalculator`).

The pandas data frame of work-log records is embedded as a `List WorkLogRecord`;
hours and all derived numeric quantities are exact rationals (the Python code
computes with floats; decimal rounding `round(x, 2)` is modelled with the
integer rounding function `round` on rationals).  Each static method of
`MetricsCalculator` becomes a Lean function of the same name; dictionary
results become structures with one field per key.  A pandas `groupby` is
modelled by taking the distinct keys (in order of first appearance, which is
irrelevant because every result table is re-sorted by an aggregate column
afterwards) and aggregating the filtered sub-list for each key.
-/

set_option maxRecDepth 4096

/-- One work-log entry, as described by the data model of the spec and as
consumed column-wise by `calculator.py`.  The optional `comment` models a
possibly-missing (NaN) comment cell; `date` is a calendar date encoded as an
integer ordinal. -/
structure WorkLogRecord where
  issue_key : String
  project_key : String
  summary : String
  issue_type : String
  comment : Option String
  category : String
  author : String
  date : Int
  time_spent_hours : ℚ
  original_estimate : ℚ
  time_spent : ℚ
deriving DecidableEq

/-- Rounding to two decimal places, `round(x, 2)` in the Python code. -/
def round2 (x : ℚ) : ℚ := ((round (100 * x) : ℤ) : ℚ) / 100

/-- Substring test on character lists: does the second list occur contiguously
inside the first?  This models the Python substring operator `in`. -/
def hasSubstr (needle : List Char) : List Char → Bool
  | [] => needle.isPrefixOf []
  | c :: rest => needle.isPrefixOf (c :: rest) || hasSubstr needle rest

/-- Python `needle in hay` on strings. -/
def strContains (hay needle : String) : Bool :=
  hasSubstr needle.toList hay.toList

/-- Python `str.lower()`, character by character. -/
def lowerStr (s : String) : String :=
  String.mk (s.toList.map Char.toLower)

/-- Lowercased concatenation of summary and comment built by `categorize_nda`
(line 177-179): `full_text = f"{summary} {comment}"` with a missing comment
treated as the empty string. -/
def fullText (r : WorkLogRecord) : String :=
  lowerStr r.summary ++ " " ++ (match r.comment with
    | some c => lowerStr c
    | none => "")

/-- Python `any(kw in full_text for kw in kws)`. -/
def anyKeyword (text : String) (kws : List String) : Bool :=
  kws.any (fun kw => strContains text kw)

/-- The NDA sub-type classifier `categorize_nda` (calculator.py lines 176-203):
an ordered first-match-wins scan of keyword groups over the lowercased
summary-plus-comment text. -/
def categorize_nda (r : WorkLogRecord) : String :=
  let t := fullText r
  if anyKeyword t ["code review", "pr review", "pull request", "review"] then "Code Review"
  else if anyKeyword t ["ceremony", "standup", "daily", "retrospective", "retro", "planning",
      "refinement", "demo", "alignment"] then "Ceremonies"
  else if anyKeyword t ["support", "help", "assist"] then "Support"
  else if anyKeyword t ["duty", "on-call", "oncall"] then "Duty"
  else if anyKeyword t ["regression", "smoke", "sanity"] then "Regression"
  else if anyKeyword t ["bug", "testing", "test", "migration"] then "Testing (Bugs + Migration)"
  else if anyKeyword t ["maintenance", "improvement", "refactor"] then "Maintenance / Improvement"
  else if anyKeyword t ["holiday", "vacation", "pto"] then "Holiday"
  else if anyKeyword t ["sick", "illness"] then "Sickness"
  else if anyKeyword t ["on demand", "ondemand", "on-demand"] then "On Demand"
  else "Other"

/-- Sum of a rational-valued column over a frame. -/
def colSum (df : List WorkLogRecord) (f : WorkLogRecord → ℚ) : ℚ :=
  (df.map f).sum

/-- Number of distinct values of a string-valued column (`nunique`). -/
def nuniqueStr (df : List WorkLogRecord) (f : WorkLogRecord → String) : ℕ :=
  ((df.map f).dedup).length

/-- Membership test used by `df[df[col].isin(vals)]`. -/
def categoryIsIn (r : WorkLogRecord) (vals : List String) : Bool :=
  vals.any (fun v => r.category == v)

/-- Row filter `category == 'Non-Development Activities'`. -/
def isNDA (r : WorkLogRecord) : Bool :=
  r.category == "Non-Development Activities"

/-- The regex filter of line 252,
`df['summary'].str.contains('on demand|ondemand|on-demand', case=False, na=False)`:
the summary contains one of the three alternatives, case-insensitively.  The
record category is not consulted. -/
def onDemandMatch (r : WorkLogRecord) : Bool :=
  strContains (lowerStr r.summary) "on demand" ||
    strContains (lowerStr r.summary) "ondemand" ||
    strContains (lowerStr r.summary) "on-demand"

/-- Result dictionary of `calculate_advanced_kpis`. -/
structure KpiSet where
  total_md : ℚ
  available_md : ℚ
  logged_md : ℚ
  delivered_md : ℚ
  nda_md : ℚ
  ratio_available_total : ℚ
  ratio_logged_available : ℚ
  ratio_logged_total : ℚ
  ratio_delivered_total : ℚ
  estimates_variation : ℚ
  on_demand_md : ℚ
  ratio_on_demand_available : ℚ
deriving DecidableEq

/-- The zero-filled KPI dictionary returned for an empty frame
(calculator.py lines 224-238). -/
def zeroKpiSet : KpiSet :=
  { total_md := 0, available_md := 0, logged_md := 0, delivered_md := 0, nda_md := 0,
    ratio_available_total := 0, ratio_logged_available := 0, ratio_logged_total := 0,
    ratio_delivered_total := 0, estimates_variation := 0, on_demand_md := 0,
    ratio_on_demand_available := 0 }

/-- The advanced KPI computation `calculate_advanced_kpis` (calculator.py
lines 219-278).  `working_days` defaults to 20 in the source and is an
integer parameter here. -/
def calculate_advanced_kpis (df : List WorkLogRecord) (working_days : Int) : KpiSet :=
  if df = [] then zeroKpiSet
  else
    let unique_authors : ℕ := nuniqueStr df (fun r => r.author)
    let total_md : ℚ := (unique_authors : ℚ) * (working_days : ℚ)
    let nda_hours : ℚ := colSum (df.filter isNDA) (fun r => r.time_spent_hours)
    let nda_md : ℚ := nda_hours / 8
    let available_md : ℚ := total_md - nda_md
    let dev_test_hours : ℚ :=
      colSum (df.filter (fun r =>
        categoryIsIn r ["Development Activities", "Testing Activities"]))
        (fun r => r.time_spent_hours)
    let logged_md : ℚ := dev_test_hours / 8
    let on_demand_md : ℚ := colSum (df.filter onDemandMatch) (fun r => r.time_spent_hours) / 8
    let delivered_md : ℚ := logged_md * (9 / 10)
    let estimates_variation : ℚ := 0
    let ratio_available_total : ℚ := if 0 < total_md then available_md / total_md * 100 else 0
    let ratio_logged_available : ℚ := if 0 < available_md then logged_md / available_md * 100 else 0
    let ratio_logged_total : ℚ := if 0 < total_md then logged_md / total_md * 100 else 0
    let ratio_delivered_total : ℚ := if 0 < total_md then delivered_md / total_md * 100 else 0
    let ratio_on_demand_available : ℚ :=
      if 0 < available_md then on_demand_md / available_md * 100 else 0
    { total_md := round2 total_md,
      available_md := round2 available_md,
      logged_md := round2 logged_md,
      delivered_md := round2 delivered_md,
      nda_md := round2 nda_md,
      ratio_available_total := round2 ratio_available_total,
      ratio_logged_available := round2 ratio_logged_available,
      ratio_logged_total := round2 ratio_logged_total,
      ratio_delivered_total := round2 ratio_delivered_total,
      estimates_variation := round2 estimates_variation,
      on_demand_md := round2 on_demand_md,
      ratio_on_demand_available := round2 ratio_on_demand_available }

/-- Result dictionary of `calculate_velocity` (calculator.py lines 14-38). -/
structure VelocityResult where
  total_estimated : ℚ
  total_actual : ℚ
  variance : ℚ
  variance_percentage : ℚ
  accuracy : ℚ
deriving DecidableEq

/-- The velocity computation `calculate_velocity` (calculator.py lines 14-38).
Note the Python operator precedence on line 30: accuracy is
`1 - (abs(variance) / total_estimated * 100)`. -/
def calculate_velocity (df : List WorkLogRecord) : VelocityResult :=
  if df = [] then
    { total_estimated := 0, total_actual := 0, variance := 0, variance_percentage := 0,
      accuracy := 0 }
  else
    let total_estimated := colSum df (fun r => r.original_estimate)
    let total_actual := colSum df (fun r => r.time_spent)
    let variance := total_actual - total_estimated
    let variance_percentage := if 0 < total_estimated then variance / total_estimated * 100 else 0
    let accuracy := if 0 < total_estimated then 1 - |variance| / total_estimated * 100 else 0
    { total_estimated := round2 total_estimated,
      total_actual := round2 total_actual,
      variance := round2 variance,
      variance_percentage := round2 variance_percentage,
      accuracy := round2 (max 0 accuracy) }

/-- One row of the activity-distribution table: Category, Total Hours,
Task Count (a plain record count), Percentage. -/
structure DistributionRow where
  category : String
  totalHours : ℚ
  taskCount : ℕ
  percentage : ℚ
deriving DecidableEq

/-- The category-distribution computation `calculate_activity_distribution`
(calculator.py lines 40-57): group by `category`, sum hours, count records,
percentage of the grand total guarded by `total_hours > 0`, sort descending
by hours.  Group keys are taken in order of first appearance; the final
`sort_values` determines the row order of the result. -/
def calculate_activity_distribution (df : List WorkLogRecord) : List DistributionRow :=
  if df = [] then []
  else
    let cats := (df.map (fun r => r.category)).dedup
    let grouped := cats.map (fun c =>
      let sub := df.filter (fun r => r.category == c)
      (c, colSum sub (fun r => r.time_spent_hours), sub.length))
    let total := (grouped.map (fun g => g.2.1)).sum
    let rows := grouped.map (fun g =>
      ({ category := g.1, totalHours := g.2.1, taskCount := g.2.2,
         percentage := if 0 < total then round2 (g.2.1 / total * 100) else 0 } : DistributionRow))
    rows.mergeSort (fun a b => decide (b.totalHours ≤ a.totalHours))

/-- Result dictionary of `calculate_da_vs_nda_ratio`.  The heterogeneous
`da_nda_ratio` entry (a float, or the string value used for an unbounded
ratio) is modelled as an `Option`: `none` stands for the string given when
NDA hours are zero. -/
structure DaNdaResult where
  da_hours : ℚ
  nda_hours : ℚ
  testing_hours : ℚ
  da_percentage : ℚ
  nda_percentage : ℚ
  testing_percentage : ℚ
  da_nda_ratio : Option ℚ
  productivity_score : ℚ
deriving DecidableEq

/-- The DA versus NDA computation `calculate_da_vs_nda_ratio` (calculator.py
lines 59-98).  On line 84 a zero NDA denominator produces an infinite float,
which line 96 renders as a textual placeholder instead of a number. -/
def calculate_da_vs_nda_ratio (df : List WorkLogRecord) : DaNdaResult :=
  if df = [] then
    { da_hours := 0, nda_hours := 0, testing_hours := 0, da_percentage := 0,
      nda_percentage := 0, testing_percentage := 0, da_nda_ratio := some 0,
      productivity_score := 0 }
  else
    let da_hours := colSum (df.filter (fun r => r.category == "Development Activities"))
      (fun r => r.time_spent_hours)
    let nda_hours := colSum (df.filter isNDA) (fun r => r.time_spent_hours)
    let testing_hours := colSum (df.filter (fun r => r.category == "Testing Activities"))
      (fun r => r.time_spent_hours)
    let total_hours := da_hours + nda_hours + testing_hours
    let da_percentage := if 0 < total_hours then da_hours / total_hours * 100 else 0
    let nda_percentage := if 0 < total_hours then nda_hours / total_hours * 100 else 0
    let testing_percentage := if 0 < total_hours then testing_hours / total_hours * 100 else 0
    let productive_hours := da_hours + testing_hours
    let productivity_score := if 0 < total_hours then productive_hours / total_hours * 100 else 0
    { da_hours := round2 da_hours,
      nda_hours := round2 nda_hours,
      testing_hours := round2 testing_hours,
      da_percentage := round2 da_percentage,
      nda_percentage := round2 nda_percentage,
      testing_percentage := round2 testing_percentage,
      da_nda_ratio := if 0 < nda_hours then some (round2 (da_hours / nda_hours)) else none,
      productivity_score := round2 productivity_score }

/-- One row of the team-overview table. -/
structure TeamRow where
  member : String
  totalHours : ℚ
  tasksCompleted : ℕ
  avgHoursPerTask : ℚ
  pctOfTotal : ℚ
deriving DecidableEq

/-- The team-overview computation `calculate_team_overview` (calculator.py
lines 100-122): group by `author`, sum hours, count distinct tickets,
average hours per task, percentage of total hours, sort descending by hours. -/
def calculate_team_overview (df : List WorkLogRecord) : List TeamRow :=
  if df = [] then []
  else
    let authors := (df.map (fun r => r.author)).dedup
    let grouped := authors.map (fun a =>
      let sub := df.filter (fun r => r.author == a)
      (a, colSum sub (fun r => r.time_spent_hours), nuniqueStr sub (fun r => r.issue_key)))
    let total := (grouped.map (fun g => g.2.1)).sum
    let rows := grouped.map (fun g =>
      ({ member := g.1, totalHours := g.2.1, tasksCompleted := g.2.2,
         avgHoursPerTask := round2 (g.2.1 / (g.2.2 : ℚ)),
         pctOfTotal := if 0 < total then round2 (g.2.1 / total * 100) else 0 } : TeamRow))
    rows.mergeSort (fun a b => decide (b.totalHours ≤ a.totalHours))

/-- One row of the daily-distribution table. -/
structure DailyRow where
  date : Int
  hoursLogged : ℚ
  tasks : ℕ
deriving DecidableEq

/-- The daily-distribution computation `calculate_daily_distribution`
(calculator.py lines 124-137): group by calendar date, sum hours, count
distinct tickets, sort ascending by date. -/
def calculate_daily_distribution (df : List WorkLogRecord) : List DailyRow :=
  if df = [] then []
  else
    let dates := (df.map (fun r => r.date)).dedup
    let grouped := dates.map (fun d =>
      let sub := df.filter (fun r => r.date == d)
      (d, colSum sub (fun r => r.time_spent_hours), nuniqueStr sub (fun r => r.issue_key)))
    let rows := grouped.map (fun g =>
      ({ date := g.1, hoursLogged := g.2.1, tasks := g.2.2 } : DailyRow))
    rows.mergeSort (fun a b => decide (a.date ≤ b.date))

/-- Result dictionary of `get_quality_indicators`. -/
structure QualityResult where
  consistency_score : ℚ
  distribution_balance : ℚ
  completion_rate : ℚ
deriving DecidableEq

/-- The quality-indicator computation `get_quality_indicators` (calculator.py
lines 139-161).  The pandas sample standard deviation is a floating-point
quantity with no exact rational counterpart, so it is taken as an explicit
function parameter `std`; no verified claim depends on its values.
`completion_rate` is the hardcoded constant 85 of line 155. -/
def get_quality_indicators (std : List ℚ → ℚ) (df : List WorkLogRecord) : QualityResult :=
  if df = [] then
    { consistency_score := 0, distribution_balance := 0, completion_rate := 0 }
  else
    let dates := (df.map (fun r => r.date)).dedup
    let daily := dates.map (fun d =>
      colSum (df.filter (fun r => r.date == d)) (fun r => r.time_spent_hours))
    let dailyMean := daily.sum / (daily.length : ℚ)
    let consistency := if 0 < dailyMean then (1 - std daily / dailyMean) * 100 else 0
    let cats := (df.map (fun r => r.category)).dedup
    let catTotals := cats.map (fun c =>
      colSum (df.filter (fun r => r.category == c)) (fun r => r.time_spent_hours))
    let catMean := catTotals.sum / (catTotals.length : ℚ)
    let balance := if 0 < catMean then (1 - std catTotals / catMean) * 100 else 0
    { consistency_score := round2 (max 0 consistency),
      distribution_balance := round2 (max 0 balance),
      completion_rate := 85 }

/-- One row of the NDA-breakdown table. -/
structure NdaRow where
  ndaType : String
  hours : ℚ
  tasks : ℕ
  percentage : ℚ
deriving DecidableEq

/-- The NDA-breakdown computation `calculate_nda_breakdown` (calculator.py
lines 163-217): restrict to Non-Development Activities, classify each record
with `categorize_nda`, group by sub-type, sum hours, count distinct tickets,
percentage of the NDA-only total guarded by `total_hours > 0`, sort
descending by hours. -/
def calculate_nda_breakdown (df : List WorkLogRecord) : List NdaRow :=
  if df = [] then []
  else
    let nda_df := df.filter isNDA
    if nda_df = [] then []
    else
      let types := (nda_df.map categorize_nda).dedup
      let grouped := types.map (fun t =>
        let sub := nda_df.filter (fun r => categorize_nda r == t)
        (t, colSum sub (fun r => r.time_spent_hours), nuniqueStr sub (fun r => r.issue_key)))
      let total := (grouped.map (fun g => g.2.1)).sum
      let rows := grouped.map (fun g =>
        ({ ndaType := g.1, hours := g.2.1, tasks := g.2.2,
           percentage := if 0 < total then round2 (g.2.1 / total * 100) else 0 } : NdaRow))
      rows.mergeSort (fun a b => decide (b.hours ≤ a.hours))

/-- One row of the squad-analysis table. -/
structure SquadRow where
  squad : String
  totalHours : ℚ
  tasks : ℕ
  contributors : ℕ
  manDays : ℚ
  pctOfTotal : ℚ
deriving DecidableEq

/-- The squad computation `calculate_squad_analysis` (calculator.py lines
280-298): group by `project_key`, sum hours, count distinct tickets and
authors, man-days = hours / 8 rounded, percentage of the total of the
rounded man-day column, sort descending by man-days. -/
def calculate_squad_analysis (df : List WorkLogRecord) : List SquadRow :=
  if df = [] then []
  else
    let squads := (df.map (fun r => r.project_key)).dedup
    let grouped := squads.map (fun s =>
      let sub := df.filter (fun r => r.project_key == s)
      (s, colSum sub (fun r => r.time_spent_hours),
        nuniqueStr sub (fun r => r.issue_key), nuniqueStr sub (fun r => r.author)))
    let withMd := grouped.map (fun g => (g, round2 (g.2.1 / 8)))
    let total_md := (withMd.map (fun g => g.2)).sum
    let rows := withMd.map (fun g =>
      ({ squad := g.1.1, totalHours := g.1.2.1, tasks := g.1.2.2.1,
         contributors := g.1.2.2.2, manDays := g.2,
         pctOfTotal := if 0 < total_md then round2 (g.2 / total_md * 100) else 0 } : SquadRow))
    rows.mergeSort (fun a b => decide (b.manDays ≤ a.manDays))

/-- Result dictionary of `calculate_ticket_analysis`. -/
structure TicketResult where
  total_worklog_entries : ℕ
  unique_tickets : ℕ
  avg_hours_per_ticket : ℚ
deriving DecidableEq

/-- The ticket summary `calculate_ticket_analysis` (calculator.py lines
300-318): entry count, distinct ticket count, mean of the per-ticket hour
sums.  With a nonempty frame there is at least one ticket group, so the
`pd.notna` guard of line 317 is satisfied and the mean is returned rounded. -/
def calculate_ticket_analysis (df : List WorkLogRecord) : TicketResult :=
  if df = [] then
    { total_worklog_entries := 0, unique_tickets := 0, avg_hours_per_ticket := 0 }
  else
    let tickets := (df.map (fun r => r.issue_key)).dedup
    let sums := tickets.map (fun k =>
      colSum (df.filter (fun r => r.issue_key == k)) (fun r => r.time_spent_hours))
    { total_worklog_entries := df.length,
      unique_tickets := tickets.length,
      avg_hours_per_ticket := round2 (sums.sum / (sums.length : ℚ)) }

/-- A row of the copied working frame of `calculate_nda_breakdown` after the
assignment `nda_df['nda_type'] = nda_df.apply(categorize_nda, axis=1)`
(line 205): the original record columns plus the derived `nda_type` column. -/
structure TypedRecord where
  row : WorkLogRecord
  nda_type : String
deriving DecidableEq

/-- State-passing embedding of `calculate_nda_breakdown` used to express its
frame effect.  The second component is the record collection the caller
passed in, as it stands when the call returns: line 171 takes a `.copy()` of
the NDA selection, so the derived `nda_type` column is written to the copy
(`TypedRecord` rows) and never to the rows of the argument frame. -/
def calculate_nda_breakdown_frame (df : List WorkLogRecord) :
    List NdaRow × List WorkLogRecord :=
  if df = [] then ([], df)
  else
    let nda_df : List WorkLogRecord := df.filter isNDA
    if nda_df = [] then ([], df)
    else
      let typed : List TypedRecord :=
        nda_df.map (fun r => { row := r, nda_type := categorize_nda r })
      let types := (typed.map (fun x => x.nda_type)).dedup
      let grouped := types.map (fun t =>
        let sub := typed.filter (fun x => x.nda_type == t)
        (t, ((sub.map (fun x => x.row.time_spent_hours)).sum),
          ((sub.map (fun x => x.row.issue_key)).dedup).length))
      let total := (grouped.map (fun g => g.2.1)).sum
      let rows := grouped.map (fun g =>
        ({ ndaType := g.1, hours := g.2.1, tasks := g.2.2,
           percentage := if 0 < total then round2 (g.2.1 / total * 100) else 0 } : NdaRow))
      (rows.mergeSort (fun a b => decide (b.hours ≤ a.hours)), df)

/-!
Theorems about the Metrics Engine, one per claim, with shared helper lemmas.
-/

/-- C9: every aggregate operation leaves its input record collection
unchanged.  In the state-passing embedding of `calculate_nda_breakdown` —
the one operation that writes a derived column — the frame handed back to
the caller is exactly the input frame, because the `nda_type` column is
written to the `.copy()` made on line 171; and its visible result agrees
with the plain functional embedding.  All remaining operations are embedded
as pure functions that only read `df`, so no field of any input record is
written anywhere. -/
theorem nda_breakdown_preserves_input (df : List WorkLogRecord) :
    (calculate_nda_breakdown_frame df).2 = df ∧
    (calculate_nda_breakdown_frame df).1 = calculate_nda_breakdown df := by
  by_cases hdf : df = []
  · subst hdf
    exact ⟨rfl, rfl⟩
  · by_cases hnda : df.filter isNDA = []
    · constructor <;>
        simp [calculate_nda_breakdown_frame, calculate_nda_breakdown, if_neg hdf, hnda]
    · constructor
      · simp only [calculate_nda_breakdown_frame, if_neg hdf, if_neg hnda]
      · simp only [calculate_nda_breakdown_frame, calculate_nda_breakdown,
          if_neg hdf, if_neg hnda]
        simp [List.map_map, List.filter_map, Function.comp_def, colSum, nuniqueStr]

/-- C2: on an empty record set, `compute_advanced_kpis` returns every field
as 0 regardless of `working_days`, and every other aggregate operation of the
Metrics Engine likewise returns its well-defined empty or zero-valued result
rather than raising an error (all the operations are total functions, and on
the empty frame each takes its explicit empty-frame branch). -/
theorem empty_input_yields_zero (working_days : Int) (std : List ℚ → ℚ) :
    calculate_advanced_kpis [] working_days = zeroKpiSet ∧
    (calculate_advanced_kpis [] working_days).total_md = 0 ∧
    (calculate_advanced_kpis [] working_days).available_md = 0 ∧
    (calculate_advanced_kpis [] working_days).logged_md = 0 ∧
    (calculate_advanced_kpis [] working_days).delivered_md = 0 ∧
    (calculate_advanced_kpis [] working_days).nda_md = 0 ∧
    (calculate_advanced_kpis [] working_days).ratio_available_total = 0 ∧
    (calculate_advanced_kpis [] working_days).ratio_logged_available = 0 ∧
    (calculate_advanced_kpis [] working_days).ratio_logged_total = 0 ∧
    (calculate_advanced_kpis [] working_days).ratio_delivered_total = 0 ∧
    (calculate_advanced_kpis [] working_days).estimates_variation = 0 ∧
    (calculate_advanced_kpis [] working_days).on_demand_md = 0 ∧
    (calculate_advanced_kpis [] working_days).ratio_on_demand_available = 0 ∧
    calculate_velocity [] =
      { total_estimated := 0, total_actual := 0, variance := 0, variance_percentage := 0,
        accuracy := 0 } ∧
    calculate_activity_distribution [] = [] ∧
    calculate_da_vs_nda_ratio [] =
      { da_hours := 0, nda_hours := 0, testing_hours := 0, da_percentage := 0,
        nda_percentage := 0, testing_percentage := 0, da_nda_ratio := some 0,
        productivity_score := 0 } ∧
    calculate_team_overview [] = [] ∧
    calculate_daily_distribution [] = [] ∧
    get_quality_indicators std [] =
      { consistency_score := 0, distribution_balance := 0, completion_rate := 0 } ∧
    calculate_nda_breakdown [] = [] ∧
    calculate_squad_analysis [] = [] ∧
    calculate_ticket_analysis [] =
      { total_worklog_entries := 0, unique_tickets := 0, avg_hours_per_ticket := 0 } :=
  ⟨rfl, rfl, rfl, rfl, rfl, rfl, rfl, rfl, rfl, rfl, rfl, rfl, rfl, rfl, rfl, rfl, rfl,
    rfl, rfl, rfl, rfl, rfl⟩

/-- C8: every aggregate operation of the Metrics Engine is deterministic:
two calls of the same operation on the same immutable input record set and
parameters yield identical results.  Each operation is embedded as a pure
function of its arguments (the Python methods are static and read no state
besides their parameters), so the two calls denote the same value. -/
theorem aggregate_operations_deterministic (df : List WorkLogRecord)
    (working_days : Int) (std : List ℚ → ℚ) :
    calculate_advanced_kpis df working_days = calculate_advanced_kpis df working_days ∧
    calculate_velocity df = calculate_velocity df ∧
    calculate_activity_distribution df = calculate_activity_distribution df ∧
    calculate_da_vs_nda_ratio df = calculate_da_vs_nda_ratio df ∧
    calculate_team_overview df = calculate_team_overview df ∧
    calculate_daily_distribution df = calculate_daily_distribution df ∧
    get_quality_indicators std df = get_quality_indicators std df ∧
    calculate_nda_breakdown df = calculate_nda_breakdown df ∧
    calculate_squad_analysis df = calculate_squad_analysis df ∧
    calculate_ticket_analysis df = calculate_ticket_analysis df :=
  ⟨rfl, rfl, rfl, rfl, rfl, rfl, rfl, rfl, rfl, rfl⟩

/-- C4: the NDA sub-type classifier scans its keyword groups in the fixed
documented order and returns the first matching label, so any record whose
lowercased summary-plus-comment text contains both "review" and "holiday" is
classified "Code Review": the Code Review group (rule 1) fires before the
Holiday group (rule 8) is ever consulted. -/
theorem categorize_nda_review_before_holiday (r : WorkLogRecord)
    (hrev : strContains (fullText r) "review" = true)
    (hhol : strContains (fullText r) "holiday" = true) :
    categorize_nda r = "Code Review" := by
  have h1 : anyKeyword (fullText r) ["code review", "pr review", "pull request", "review"]
      = true := by
    simp only [anyKeyword, List.any_cons, List.any_nil, Bool.or_eq_true]
    exact Or.inr (Or.inr (Or.inr (Or.inl hrev)))
  simp only [categorize_nda, h1, if_true]

/-- Concrete record whose text contains both "review" and "holiday". -/
def reviewHolidayRecord : WorkLogRecord :=
  { issue_key := "QA-7", project_key := "QA", summary := "Review meeting",
    issue_type := "Task", comment := some "during holiday week",
    category := "Non-Development Activities", author := "amy", date := 0,
    time_spent_hours := 1, original_estimate := 0, time_spent := 0 }

/-- Witness for C4 at a concrete record. -/
theorem categorize_nda_review_before_holiday_witness :
    categorize_nda reviewHolidayRecord = "Code Review" :=
  categorize_nda_review_before_holiday reviewHolidayRecord (by decide) (by decide)

/-- C6: `on_demand_md` equals one eighth of the hour sum over the records
whose summary contains, case-insensitively, one of "on demand", "ondemand"
or "on-demand" — the filter `onDemandMatch` reads only the summary, never
the category — and a summary "On-Demand support ticket" always passes the
filter, whatever the category of its record. -/
theorem on_demand_md_independent_of_category (df : List WorkLogRecord)
    (working_days : Int) (hne : df ≠ []) :
    (calculate_advanced_kpis df working_days).on_demand_md =
      round2 (((df.filter onDemandMatch).map (fun r => r.time_spent_hours)).sum / 8) ∧
    ∀ r : WorkLogRecord, r.summary = "On-Demand support ticket" → onDemandMatch r = true := by
  constructor
  · rw [calculate_advanced_kpis, if_neg hne]
    rfl
  · intro r hr
    rw [onDemandMatch, hr]
    decide

/-- Concrete on-demand record, categorized as an NDA entry: its hours are
counted in `nda_md` and nevertheless contribute to `on_demand_md`. -/
def onDemandRecord : WorkLogRecord :=
  { issue_key := "QA-9", project_key := "QA", summary := "On-Demand support ticket",
    issue_type := "Task", comment := none,
    category := "Non-Development Activities", author := "amy", date := 0,
    time_spent_hours := 8, original_estimate := 0, time_spent := 0 }

/-- Witness for C6: the on-demand filter accepts `onDemandRecord` although
its category is Non-Development Activities, and on the singleton frame the
`on_demand_md` field is the filtered hour sum over eight. -/
theorem on_demand_md_independent_of_category_witness :
    (calculate_advanced_kpis [onDemandRecord] 20).on_demand_md =
      round2 ((([onDemandRecord].filter onDemandMatch).map
        (fun r => r.time_spent_hours)).sum / 8) ∧
    onDemandMatch onDemandRecord = true :=
  ⟨(on_demand_md_independent_of_category [onDemandRecord] 20 (by decide)).1,
    (on_demand_md_independent_of_category [onDemandRecord] 20 (by decide)).2
      onDemandRecord rfl⟩

/-- Count of distinct authors, `df['author'].nunique()` on line 240. -/
def uniqueAuthors (df : List WorkLogRecord) : ℕ :=
  nuniqueStr df (fun r => r.author)

/-- Hour sum of the Non-Development Activities records, line 243. -/
def ndaHoursOf (df : List WorkLogRecord) : ℚ :=
  colSum (df.filter isNDA) (fun r => r.time_spent_hours)

/-- Rounding to two decimals of an integer value changes nothing. -/
theorem round2_intCast (n : ℤ) : round2 ((n : ℚ)) = n := by
  unfold round2
  rw [show (100 : ℚ) * (n : ℚ) = ((100 * n : ℤ) : ℚ) by push_cast; ring, round_intCast]
  push_cast
  rw [mul_comm]
  exact mul_div_cancel_right₀ _ (by norm_num)

/-- A nonempty frame has at least one distinct value in every column. -/
theorem nuniqueStr_pos (df : List WorkLogRecord) (f : WorkLogRecord → String)
    (hne : df ≠ []) : 0 < nuniqueStr df f := by
  cases df with
  | nil => exact absurd rfl hne
  | cons r t =>
      have hmem : f r ∈ ((r :: t).map f).dedup := List.mem_dedup.mpr (by simp)
      exact List.length_pos_of_mem hmem

/-- C1: on a nonempty record set with positive `working_days`, the advanced
KPI computation returns `total_md` = distinct authors times `working_days`,
`nda_md` = NDA hours over eight, `available_md` = their difference, and
`ratio_available_total` = available over total times 100, each rounded to
two decimals (`total_md` being an integer is unchanged by rounding). -/
theorem advanced_kpis_formulas (df : List WorkLogRecord) (working_days : Int)
    (hne : df ≠ []) (hwd : 0 < working_days) :
    (calculate_advanced_kpis df working_days).total_md =
      (uniqueAuthors df : ℚ) * (working_days : ℚ) ∧
    (calculate_advanced_kpis df working_days).nda_md = round2 (ndaHoursOf df / 8) ∧
    (calculate_advanced_kpis df working_days).available_md =
      round2 ((uniqueAuthors df : ℚ) * (working_days : ℚ) - ndaHoursOf df / 8) ∧
    (calculate_advanced_kpis df working_days).ratio_available_total =
      round2 (((uniqueAuthors df : ℚ) * (working_days : ℚ) - ndaHoursOf df / 8) /
        ((uniqueAuthors df : ℚ) * (working_days : ℚ)) * 100) := by
  have hpos : 0 < (uniqueAuthors df : ℚ) * (working_days : ℚ) := by
    have h1 : 0 < uniqueAuthors df := nuniqueStr_pos df _ hne
    have h2 : (0 : ℚ) < (uniqueAuthors df : ℚ) := by exact_mod_cast h1
    have h3 : (0 : ℚ) < (working_days : ℚ) := by exact_mod_cast hwd
    exact mul_pos h2 h3
  rw [calculate_advanced_kpis, if_neg hne]
  refine ⟨?_, rfl, rfl, ?_⟩
  · show round2 ((uniqueAuthors df : ℚ) * (working_days : ℚ)) = _
    rw [show (uniqueAuthors df : ℚ) * (working_days : ℚ)
        = (((uniqueAuthors df : ℤ) * working_days : ℤ) : ℚ) by push_cast; ring]
    rw [round2_intCast]
    try push_cast
    try ring
  · show round2 (if 0 < (uniqueAuthors df : ℚ) * (working_days : ℚ) then _ else 0) = _
    rw [if_pos hpos]
    rfl

/-- Rounding zero to two decimals gives zero. -/
theorem round2_zero : round2 0 = 0 := by
  simp [round2]

/-- A value below minus one two-hundredth stays negative after rounding to
two decimals. -/
theorem round2_neg_of_lt (x : ℚ) (h : x < -(1 / 200)) : round2 x < 0 := by
  unfold round2
  have h2 : round ((100 : ℚ) * x) < 0 := by
    rw [round_eq]
    have : ⌊(100 : ℚ) * x + 1 / 2⌋ < (0 : ℤ) := Int.floor_lt.mpr (by push_cast; linarith)
    exact this
  exact div_neg_of_neg_of_pos (by exact_mod_cast h2) (by norm_num)

/-- Total man-days, line 241: distinct authors times working days. -/
def totalMdOf (df : List WorkLogRecord) (working_days : Int) : ℚ :=
  (uniqueAuthors df : ℚ) * (working_days : ℚ)

/-- Unrounded available man-days, line 246. -/
def availableMdOf (df : List WorkLogRecord) (working_days : Int) : ℚ :=
  totalMdOf df working_days - ndaHoursOf df / 8

/-- Hour sum of the Development and Testing records, lines 248-249. -/
def devTestHoursOf (df : List WorkLogRecord) : ℚ :=
  colSum (df.filter (fun r =>
    categoryIsIn r ["Development Activities", "Testing Activities"]))
    (fun r => r.time_spent_hours)

/-- Hour sum of the on-demand records, lines 252-253. -/
def onDemandHoursOf (df : List WorkLogRecord) : ℚ :=
  colSum (df.filter onDemandMatch) (fun r => r.time_spent_hours)

/-- Hour sum of the Development Activities records, line 74. -/
def daHoursOf (df : List WorkLogRecord) : ℚ :=
  colSum (df.filter (fun r => r.category == "Development Activities"))
    (fun r => r.time_spent_hours)

/-- Closed form of `calculate_advanced_kpis` on a nonempty frame, with each
intermediate quantity named. -/
theorem calculate_advanced_kpis_eq (df : List WorkLogRecord) (working_days : Int)
    (hne : df ≠ []) :
    calculate_advanced_kpis df working_days =
      { total_md := round2 (totalMdOf df working_days),
        available_md := round2 (availableMdOf df working_days),
        logged_md := round2 (devTestHoursOf df / 8),
        delivered_md := round2 (devTestHoursOf df / 8 * (9 / 10)),
        nda_md := round2 (ndaHoursOf df / 8),
        ratio_available_total := round2 (if 0 < totalMdOf df working_days then
          availableMdOf df working_days / totalMdOf df working_days * 100 else 0),
        ratio_logged_available := round2 (if 0 < availableMdOf df working_days then
          devTestHoursOf df / 8 / availableMdOf df working_days * 100 else 0),
        ratio_logged_total := round2 (if 0 < totalMdOf df working_days then
          devTestHoursOf df / 8 / totalMdOf df working_days * 100 else 0),
        ratio_delivered_total := round2 (if 0 < totalMdOf df working_days then
          devTestHoursOf df / 8 * (9 / 10) / totalMdOf df working_days * 100 else 0),
        estimates_variation := round2 0,
        on_demand_md := round2 (onDemandHoursOf df / 8),
        ratio_on_demand_available := round2 (if 0 < availableMdOf df working_days then
          onDemandHoursOf df / 8 / availableMdOf df working_days * 100 else 0) } := by
  rw [calculate_advanced_kpis, if_neg hne]
  rfl

/-- Closed form of the DA/NDA ratio entry on a nonempty frame. -/
theorem da_nda_ratio_eq (df : List WorkLogRecord) (hne : df ≠ []) :
    (calculate_da_vs_nda_ratio df).da_nda_ratio =
      if 0 < ndaHoursOf df then some (round2 (daHoursOf df / ndaHoursOf df)) else none := by
  rw [calculate_da_vs_nda_ratio, if_neg hne]
  rfl

/-- Singleton frame with one Development Activities record: its NDA hour sum
is zero. -/
def devOnlyFrame : List WorkLogRecord :=
  [{ issue_key := "QA-3", project_key := "QA", summary := "implement feature",
     issue_type := "Task", comment := none,
     category := "Development Activities", author := "amy", date := 0,
     time_spent_hours := 8, original_estimate := 0, time_spent := 0 }]

/-- The example frame has no NDA records, hence zero NDA hours. -/
theorem devOnlyFrame_nda_hours : ndaHoursOf devOnlyFrame = 0 := by
  have hf : devOnlyFrame.filter isNDA = [] := by
    simp +decide [devOnlyFrame, List.filter, isNDA]
  rw [ndaHoursOf, hf]
  rfl

/-- Counterexample to C5 as stated: on a nonempty record set whose NDA hours
are zero, the DA/NDA ratio is not the claimed 0 but the textual placeholder
(modelled `none`), the rendering of an infinite float. -/
theorem da_nda_ratio_zero_denominator_counterexample :
    ndaHoursOf devOnlyFrame = 0 ∧
    (calculate_da_vs_nda_ratio devOnlyFrame).da_nda_ratio ≠ some 0 := by
  refine ⟨devOnlyFrame_nda_hours, ?_⟩
  rw [da_nda_ratio_eq devOnlyFrame (by decide), devOnlyFrame_nda_hours]
  simp

/-- C5 (amended): each of the five ratio computations of
`compute_advanced_kpis` yields 0 whenever its denominator is not positive
(`total_md` for the three total ratios, the unrounded `available_md` for the
two availability ratios); the DA/NDA ratio operation likewise never raises
and never returns an infinite number, but on a nonempty record set with NDA
hours 0 it substitutes the textual placeholder (`none`), not 0. -/
theorem ratio_zero_denominator_guards (df : List WorkLogRecord) (working_days : Int) :
    (¬ 0 < totalMdOf df working_days →
      (calculate_advanced_kpis df working_days).ratio_available_total = 0 ∧
      (calculate_advanced_kpis df working_days).ratio_logged_total = 0 ∧
      (calculate_advanced_kpis df working_days).ratio_delivered_total = 0) ∧
    (¬ 0 < availableMdOf df working_days →
      (calculate_advanced_kpis df working_days).ratio_logged_available = 0 ∧
      (calculate_advanced_kpis df working_days).ratio_on_demand_available = 0) ∧
    (df ≠ [] → ndaHoursOf df = 0 →
      (calculate_da_vs_nda_ratio df).da_nda_ratio = none) := by
  by_cases hdf : df = []
  · subst hdf
    exact ⟨fun _ => ⟨rfl, rfl, rfl⟩, fun _ => ⟨rfl, rfl⟩, fun h => absurd rfl h⟩
  · refine ⟨fun htot => ?_, fun hav => ?_, fun _ hnda => ?_⟩
    · simp [calculate_advanced_kpis_eq df working_days hdf, if_neg htot, round2_zero]
    · simp [calculate_advanced_kpis_eq df working_days hdf, if_neg hav, round2_zero]
    · rw [da_nda_ratio_eq df hdf, hnda]
      simp

/-- Witness for C5 at a concrete frame: one author, zero working days, no
NDA hours — all five KPI ratios are 0 and the DA/NDA ratio is the
placeholder. -/
theorem ratio_zero_denominator_guards_witness :
    (calculate_advanced_kpis devOnlyFrame 0).ratio_available_total = 0 ∧
    (calculate_advanced_kpis devOnlyFrame 0).ratio_logged_total = 0 ∧
    (calculate_advanced_kpis devOnlyFrame 0).ratio_delivered_total = 0 ∧
    (calculate_advanced_kpis devOnlyFrame 0).ratio_logged_available = 0 ∧
    (calculate_advanced_kpis devOnlyFrame 0).ratio_on_demand_available = 0 ∧
    (calculate_da_vs_nda_ratio devOnlyFrame).da_nda_ratio = none := by
  have ht : totalMdOf devOnlyFrame 0 = 0 := by simp [totalMdOf]
  have ha : availableMdOf devOnlyFrame 0 = 0 := by
    simp [availableMdOf, ht, devOnlyFrame_nda_hours]
  have h := ratio_zero_denominator_guards devOnlyFrame 0
  have h1 := h.1 (by simp [ht])
  have h2 := h.2.1 (by simp [ha])
  have h3 := h.2.2 (by decide) devOnlyFrame_nda_hours
  exact ⟨h1.1, h1.2.1, h1.2.2, h2.1, h2.2, h3⟩

/-- Singleton frame with sixteen NDA hours: two NDA man-days against a
single available man-day when `working_days` is 1. -/
def ndaHeavyFrame : List WorkLogRecord :=
  [{ issue_key := "QA-4", project_key := "QA", summary := "sprint planning",
     issue_type := "Task", comment := none,
     category := "Non-Development Activities", author := "amy", date := 0,
     time_spent_hours := 16, original_estimate := 0, time_spent := 0 }]

/-- The heavy frame carries sixteen NDA hours. -/
theorem ndaHeavyFrame_nda_hours : ndaHoursOf ndaHeavyFrame = 16 := by
  rw [ndaHoursOf, show ndaHeavyFrame.filter isNDA = ndaHeavyFrame from by
    simp +decide [ndaHeavyFrame, List.filter, isNDA]]
  show (16 : ℚ) + 0 = 16
  norm_num

/-- The heavy frame has one author. -/
theorem ndaHeavyFrame_total_md : totalMdOf ndaHeavyFrame 1 = 1 := by
  rw [totalMdOf, show uniqueAuthors ndaHeavyFrame = 1 from by decide]
  norm_num

/-- Singleton frame whose NDA hours exceed the single available man-day by
one thousandth of a man-day: 8.008 hours, that is 1001/125. -/
def hairlineFrame : List WorkLogRecord :=
  [{ issue_key := "QA-5", project_key := "QA", summary := "sprint planning",
     issue_type := "Task", comment := none,
     category := "Non-Development Activities", author := "amy", date := 0,
     time_spent_hours := 1001 / 125, original_estimate := 0, time_spent := 0 }]

/-- The hairline frame carries 1001/125 NDA hours. -/
theorem hairlineFrame_nda_hours : ndaHoursOf hairlineFrame = 1001 / 125 := by
  rw [ndaHoursOf, show hairlineFrame.filter isNDA = hairlineFrame from by
    simp +decide [hairlineFrame, List.filter, isNDA]]
  show (1001 / 125 : ℚ) + 0 = 1001 / 125
  norm_num

/-- The hairline frame has one author. -/
theorem hairlineFrame_total_md : totalMdOf hairlineFrame 1 = 1 := by
  rw [totalMdOf, show uniqueAuthors hairlineFrame = 1 from by decide]
  norm_num

/-- Counterexample to C10 as stated: with one author, one working day and
8.008 NDA hours, NDA man-days (1.001) exceed `total_md` (1), yet the
reported `available_md` is `round(-0.001, 2)`, which is zero, not a negative
number. -/
theorem available_md_rounding_counterexample :
    totalMdOf hairlineFrame 1 < ndaHoursOf hairlineFrame / 8 ∧
    ¬ (calculate_advanced_kpis hairlineFrame 1).available_md < 0 := by
  constructor
  · rw [hairlineFrame_total_md, hairlineFrame_nda_hours]
    norm_num
  · rw [calculate_advanced_kpis_eq hairlineFrame 1 (by decide)]
    show ¬ round2 (availableMdOf hairlineFrame 1) < 0
    rw [show availableMdOf hairlineFrame 1 = -(1 / 1000) from by
      rw [availableMdOf, hairlineFrame_total_md, hairlineFrame_nda_hours]; norm_num]
    rw [show round2 (-(1 / 1000)) = 0 from by norm_num [round2, round_eq]]
    norm_num

/-- C10 (amended): `compute_advanced_kpis` does not clamp `available_md` at
zero — whenever NDA hours over eight exceed `total_md` by more than the
rounding resolution 1/200, the reported `available_md` is negative — and
whenever the unrounded `available_md` is not positive, the two
availability-denominator ratios are 0 (the guard on lines 260 and 263 tests
`available_md > 0`), whatever the values of `logged_md` and `on_demand_md`. -/
theorem available_md_not_clamped (df : List WorkLogRecord) (working_days : Int)
    (hne : df ≠ []) :
    (totalMdOf df working_days + 1 / 200 < ndaHoursOf df / 8 →
      (calculate_advanced_kpis df working_days).available_md < 0) ∧
    (¬ 0 < availableMdOf df working_days →
      (calculate_advanced_kpis df working_days).ratio_logged_available = 0 ∧
      (calculate_advanced_kpis df working_days).ratio_on_demand_available = 0) := by
  constructor
  · intro hex
    rw [calculate_advanced_kpis_eq df working_days hne]
    show round2 (availableMdOf df working_days) < 0
    refine round2_neg_of_lt _ ?_
    rw [availableMdOf]
    linarith
  · intro hav
    simp [calculate_advanced_kpis_eq df working_days hne, if_neg hav, round2_zero]

/-- Witness for C10: one author, one working day, sixteen NDA hours — the
reported `available_md` is negative and both availability ratios are 0. -/
theorem available_md_not_clamped_witness :
    (calculate_advanced_kpis ndaHeavyFrame 1).available_md < 0 ∧
    (calculate_advanced_kpis ndaHeavyFrame 1).ratio_logged_available = 0 ∧
    (calculate_advanced_kpis ndaHeavyFrame 1).ratio_on_demand_available = 0 := by
  have h := available_md_not_clamped ndaHeavyFrame 1 (by decide)
  have h1 := h.1 (by rw [ndaHeavyFrame_total_md, ndaHeavyFrame_nda_hours]; norm_num)
  have h2 := h.2 (by
    rw [availableMdOf, ndaHeavyFrame_total_md, ndaHeavyFrame_nda_hours]; norm_num)
  exact ⟨h1, h2.1, h2.2⟩

/-- Splitting a mapped sum along a Boolean filter. -/
theorem sum_map_filter_split {α : Type} (p : α → Bool) (f : α → ℚ) (l : List α) :
    ((l.filter p).map f).sum + ((l.filter (fun a => ! p a)).map f).sum = (l.map f).sum := by
  induction l with
  | nil => simp
  | cons a t ih =>
      by_cases h : p a = true
      · simp only [List.filter_cons, h, if_true, Bool.not_true, Bool.false_eq_true, if_false,
          List.map_cons, List.sum_cons]
        rw [← ih]
        ring
      · have h2 : p a = false := by simpa using h
        simp only [List.filter_cons, h2, Bool.false_eq_true, if_false, Bool.not_false, if_true,
          List.map_cons, List.sum_cons]
        rw [← ih]
        ring

/-- Grouping a frame by a string key and summing each group recovers the
total sum, provided the key list has no duplicates and covers the frame:
the group-by of pandas partitions the rows. -/
theorem sum_over_groups (key : WorkLogRecord → String) (f : WorkLogRecord → ℚ) :
    ∀ (keys : List String) (df : List WorkLogRecord), keys.Nodup →
      (∀ r ∈ df, key r ∈ keys) →
      (keys.map (fun k => ((df.filter (fun r => key r == k)).map f).sum)).sum
        = (df.map f).sum := by
  intro keys
  induction keys with
  | nil =>
      intro df _ hall
      have hdf : df = [] := List.eq_nil_iff_forall_not_mem.mpr
        (fun r hr => by simpa using hall r hr)
      subst hdf
      simp
  | cons k ks ih =>
      intro df hnd hall
      have hknotin : k ∉ ks := (List.nodup_cons.mp hnd).1
      have hndks : ks.Nodup := (List.nodup_cons.mp hnd).2
      rw [List.map_cons, List.sum_cons]
      have hsplit := sum_map_filter_split (fun r => key r == k) f df
      have hfix : ∀ q ∈ ks,
          ((df.filter (fun r => key r == q)).map f).sum
            = (((df.filter (fun r => ! (key r == k))).filter (fun r => key r == q)).map f).sum := by
        intro q hq
        have hqk : q ≠ k := fun h => hknotin (h ▸ hq)
        have : df.filter (fun r => key r == q)
            = (df.filter (fun r => ! (key r == k))).filter (fun r => key r == q) := by
          rw [List.filter_filter]
          refine (List.filter_congr ?_)
          intro r _
          cases h1 : (key r == q) with
          | false => simp
          | true =>
              have hrq : key r = q := by simpa using h1
              have : (key r == k) = false := by
                simp [hrq]
                exact hqk
              simp [this]
        rw [this]
      have hrest : (ks.map (fun q => ((df.filter (fun r => key r == q)).map f).sum)).sum
          = (ks.map (fun q =>
              (((df.filter (fun r => ! (key r == k))).filter (fun r => key r == q)).map f).sum)).sum := by
        exact congrArg List.sum (List.map_congr_left hfix)
      have hcover : ∀ r ∈ df.filter (fun r => ! (key r == k)), key r ∈ ks := by
        intro r hr
        have hrdf : r ∈ df := List.mem_of_mem_filter hr
        have hrk : ¬ (key r == k) = true := by
          have := List.of_mem_filter hr
          simpa using this
        have := hall r hrdf
        cases List.mem_cons.mp this with
        | inl h => exact absurd (by simp [h]) hrk
        | inr h => exact h
      rw [hrest, ih (df.filter (fun r => ! (key r == k))) hndks hcover]
      linarith [hsplit]

/-- Hour sum of the NDA records of the given sub-type: the claim-side
reading of one breakdown row — filter to Non-Development Activities,
classify, keep the records of sub-type `t`, sum hours. -/
def ndaTypeHours (df : List WorkLogRecord) (t : String) : ℚ :=
  (((df.filter isNDA).filter (fun r => categorize_nda r == t)).map
    (fun r => r.time_spent_hours)).sum

/-- Distinct-ticket count of the NDA records of the given sub-type. -/
def ndaTypeTasks (df : List WorkLogRecord) (t : String) : ℕ :=
  ((((df.filter isNDA).filter (fun r => categorize_nda r == t)).map
    (fun r => r.issue_key)).dedup).length

/-- Hour total of the NDA records only. -/
def ndaTotalHours (df : List WorkLogRecord) : ℚ :=
  ((df.filter isNDA).map (fun r => r.time_spent_hours)).sum

/-- The distinct NDA sub-types of a frame, in order of first appearance. -/
def ndaTypesOf (df : List WorkLogRecord) : List String :=
  ((df.filter isNDA).map categorize_nda).dedup

/-- Total of the Hours column of the grouped NDA table, as summed on line
214 of the source. -/
def ndaGroupTotal (df : List WorkLogRecord) : ℚ :=
  ((ndaTypesOf df).map (fun t => ndaTypeHours df t)).sum

/-- Closed form of `calculate_nda_breakdown` on a frame with NDA records. -/
theorem calculate_nda_breakdown_eq (df : List WorkLogRecord) (hdf : df ≠ [])
    (hnda : ¬ df.filter isNDA = []) :
    calculate_nda_breakdown df =
      ((ndaTypesOf df).map (fun t =>
        ({ ndaType := t, hours := ndaTypeHours df t, tasks := ndaTypeTasks df t,
           percentage := if 0 < ndaGroupTotal df then
             round2 (ndaTypeHours df t / ndaGroupTotal df * 100) else 0 } : NdaRow))).mergeSort
        (fun a b => decide (b.hours ≤ a.hours)) := by
  rw [calculate_nda_breakdown, if_neg hdf, if_neg hnda]
  simp only [List.map_map, Function.comp_def]
  rfl

/-- The Hours column of the grouped NDA table sums to the NDA-only hour
total of the frame. -/
theorem ndaGroupTotal_eq (df : List WorkLogRecord) :
    ndaGroupTotal df = ndaTotalHours df := by
  rw [ndaGroupTotal, ndaTotalHours]
  exact sum_over_groups categorize_nda (fun r => r.time_spent_hours) (ndaTypesOf df)
    (df.filter isNDA) (List.nodup_dedup _)
    (fun r hr => List.mem_dedup.mpr (List.mem_map_of_mem categorize_nda hr))

/-- C7: `aggregate_nda_breakdown` restricts the input to Non-Development
Activities records, classifies each with the NDA sub-type rules, groups by
sub-type, sums hours, counts distinct issue keys per sub-type, reports each
percentage relative to the NDA-only hour total, and returns the empty table
(not an error) when no NDA records exist. -/
theorem nda_breakdown_rows (df : List WorkLogRecord) :
    (df.filter isNDA = [] → calculate_nda_breakdown df = []) ∧
    (∀ row ∈ calculate_nda_breakdown df,
      row.hours = ndaTypeHours df row.ndaType ∧
      row.tasks = ndaTypeTasks df row.ndaType ∧
      row.percentage = (if 0 < ndaTotalHours df then
        round2 (row.hours / ndaTotalHours df * 100) else 0)) := by
  constructor
  · intro h
    by_cases hdf : df = []
    · subst hdf; rfl
    · simp [calculate_nda_breakdown, if_neg hdf, h]
  · intro row hmem
    by_cases hdf : df = []
    · subst hdf; simp [calculate_nda_breakdown] at hmem
    · by_cases hnda : df.filter isNDA = []
      · rw [calculate_nda_breakdown, if_neg hdf] at hmem
        simp [hnda] at hmem
      · rw [calculate_nda_breakdown_eq df hdf hnda] at hmem
        have hmem2 := (List.mergeSort_perm _ _).mem_iff.mp hmem
        obtain ⟨t, _, hrow⟩ := List.mem_map.mp hmem2
        subst hrow
        rw [ndaGroupTotal_eq] at *
        exact ⟨rfl, rfl, rfl⟩

/-- Frame with a single (NDA, "retrospective") record for the C7 witness. -/
def ceremonyFrame : List WorkLogRecord :=
  [{ issue_key := "QA-6", project_key := "QA", summary := "sprint retrospective",
     issue_type := "Task", comment := none,
     category := "Non-Development Activities", author := "amy", date := 0,
     time_spent_hours := 8, original_estimate := 0, time_spent := 0 }]

/-- The single breakdown row of `ceremonyFrame`: the example of the spec —
one Ceremonies row with 8 hours, 1 task and 100 percent. -/
def ceremonyRow : NdaRow :=
  { ndaType := "Ceremonies", hours := 8, tasks := 1, percentage := 100 }

/-- Concrete evaluation of the breakdown of `ceremonyFrame`. -/
theorem ceremony_breakdown_value :
    calculate_nda_breakdown ceremonyFrame = [ceremonyRow] := by
  have hfil : ceremonyFrame.filter isNDA = ceremonyFrame := by
    simp +decide [ceremonyFrame, List.filter, isNDA]
  have htypes : ndaTypesOf ceremonyFrame = ["Ceremonies"] := by decide
  have hhours : ndaTypeHours ceremonyFrame "Ceremonies" = 8 := by
    rw [ndaTypeHours, hfil, show ceremonyFrame.filter
        (fun r => categorize_nda r == "Ceremonies") = ceremonyFrame from by
      simp +decide [ceremonyFrame, List.filter]]
    show (8 : ℚ) + 0 = 8
    norm_num
  have htasks : ndaTypeTasks ceremonyFrame "Ceremonies" = 1 := by decide
  have htot : ndaGroupTotal ceremonyFrame = 8 := by
    rw [ndaGroupTotal, htypes, List.map_cons, List.map_nil, List.sum_cons, List.sum_nil,
      hhours]
    norm_num
  rw [calculate_nda_breakdown_eq ceremonyFrame (by decide)
    (by rw [hfil]; decide), htypes]
  rw [List.map_cons, List.map_nil, htot, hhours, htasks]
  rw [if_pos (by norm_num : (0 : ℚ) < 8)]
  rw [show round2 ((8 : ℚ) / 8 * 100) = 100 from by norm_num [round2, round_eq]]
  simp [List.mergeSort, ceremonyRow]

/-- Witness for C7: the empty-table case at a frame with no NDA records,
and the row characterization at the concrete one-row breakdown of
`ceremonyFrame`. -/
theorem nda_breakdown_rows_witness :
    calculate_nda_breakdown devOnlyFrame = [] ∧
    ceremonyRow.hours = ndaTypeHours ceremonyFrame ceremonyRow.ndaType ∧
    ceremonyRow.tasks = ndaTypeTasks ceremonyFrame ceremonyRow.ndaType ∧
    ceremonyRow.percentage = (if 0 < ndaTotalHours ceremonyFrame then
      round2 (ceremonyRow.hours / ndaTotalHours ceremonyFrame * 100) else 0) := by
  have hmem : ceremonyRow ∈ calculate_nda_breakdown ceremonyFrame := by
    rw [ceremony_breakdown_value]
    exact List.mem_singleton.mpr rfl
  have h := (nda_breakdown_rows ceremonyFrame).2 ceremonyRow hmem
  exact ⟨(nda_breakdown_rows devOnlyFrame).1
    (by simp +decide [devOnlyFrame, List.filter, isNDA]), h.1, h.2.1, h.2.2⟩

/-- The distinct categories of a frame, in order of first appearance. -/
def categoriesOf (df : List WorkLogRecord) : List String :=
  (df.map (fun r => r.category)).dedup

/-- Hour sum of one category group. -/
def categoryHours (df : List WorkLogRecord) (c : String) : ℚ :=
  ((df.filter (fun r => r.category == c)).map (fun r => r.time_spent_hours)).sum

/-- Record count of one category group (the `count` aggregation of line 48). -/
def categoryCount (df : List WorkLogRecord) (c : String) : ℕ :=
  (df.filter (fun r => r.category == c)).length

/-- Total of the Total Hours column of the grouped distribution table, as
summed on line 53 of the source. -/
def distTotal (df : List WorkLogRecord) : ℚ :=
  ((categoriesOf df).map (fun c => categoryHours df c)).sum

/-- Hour sum over the whole frame. -/
def totalHoursOf (df : List WorkLogRecord) : ℚ :=
  (df.map (fun r => r.time_spent_hours)).sum

/-- Closed form of `calculate_activity_distribution` on a nonempty frame. -/
theorem calculate_activity_distribution_eq (df : List WorkLogRecord) (hdf : df ≠ []) :
    calculate_activity_distribution df =
      ((categoriesOf df).map (fun c =>
        ({ category := c, totalHours := categoryHours df c, taskCount := categoryCount df c,
           percentage := if 0 < distTotal df then
             round2 (categoryHours df c / distTotal df * 100) else 0 } : DistributionRow))).mergeSort
        (fun a b => decide (b.totalHours ≤ a.totalHours)) := by
  rw [calculate_activity_distribution, if_neg hdf]
  simp only [List.map_map, Function.comp_def]
  rfl

/-- The Total Hours column of the grouped table sums to the hour total of
the frame. -/
theorem distTotal_eq (df : List WorkLogRecord) : distTotal df = totalHoursOf df := by
  rw [distTotal, totalHoursOf]
  exact sum_over_groups (fun r => r.category) (fun r => r.time_spent_hours) (categoriesOf df)
    df (List.nodup_dedup _)
    (fun r hr => List.mem_dedup.mpr (List.mem_map_of_mem (fun r => r.category) hr))

/-- The two-decimal rounding moves a value by at most one two-hundredth. -/
theorem round2_err (x : ℚ) : |round2 x - x| ≤ 1 / 200 := by
  have h : round2 x - x = (((round ((100 : ℚ) * x) : ℤ) : ℚ) - 100 * x) / 100 := by
    rw [round2]; ring
  have habs : |((round ((100 : ℚ) * x) : ℤ) : ℚ) - 100 * x| ≤ 1 / 2 := by
    rw [abs_sub_comm]
    exact abs_sub_round ((100 : ℚ) * x)
  rw [h, abs_div, show |(100 : ℚ)| = 100 from by norm_num]
  linarith

/-- Pulling a constant factor out of a mapped sum. -/
theorem sum_map_mul_right {α : Type} (l : List α) (f : α → ℚ) (c : ℚ) :
    (l.map (fun a => f a * c)).sum = (l.map f).sum * c := by
  induction l with
  | nil => simp
  | cons a t ih =>
      simp only [List.map_cons, List.sum_cons, ih]
      ring

/-- Writing a sum of two-decimal roundings over the integer numerators. -/
theorem sum_map_round2_eq (l : List ℚ) :
    (l.map round2).sum = (((l.map (fun p => round ((100 : ℚ) * p))).sum : ℤ) : ℚ) / 100 := by
  induction l with
  | nil => simp
  | cons a t ih =>
      simp only [List.map_cons, List.sum_cons, ih, round2]
      push_cast
      ring

/-- The integer numerators of the roundings track one hundred times the sum,
up to half a unit per entry. -/
theorem abs_sum_roundint_sub (l : List ℚ) :
    |(((l.map (fun p => round ((100 : ℚ) * p))).sum : ℤ) : ℚ) - 100 * l.sum|
      ≤ (l.length : ℚ) / 2 := by
  induction l with
  | nil => simp
  | cons a t ih =>
      simp only [List.map_cons, List.sum_cons, List.length_cons]
      have ha : |((round ((100 : ℚ) * a) : ℤ) : ℚ) - 100 * a| ≤ 1 / 2 := by
        rw [abs_sub_comm]
        exact abs_sub_round ((100 : ℚ) * a)
      have hsplit : (((round ((100 : ℚ) * a) + (t.map (fun p => round ((100 : ℚ) * p))).sum : ℤ) : ℚ)
            - 100 * (a + t.sum))
          = (((round ((100 : ℚ) * a) : ℤ) : ℚ) - 100 * a)
            + ((((t.map (fun p => round ((100 : ℚ) * p))).sum : ℤ) : ℚ) - 100 * t.sum) := by
        push_cast
        ring
      rw [hsplit]
      calc |(((round ((100 : ℚ) * a) : ℤ) : ℚ) - 100 * a)
            + ((((t.map (fun p => round ((100 : ℚ) * p))).sum : ℤ) : ℚ) - 100 * t.sum)|
          ≤ |((round ((100 : ℚ) * a) : ℤ) : ℚ) - 100 * a|
            + |(((t.map (fun p => round ((100 : ℚ) * p))).sum : ℤ) : ℚ) - 100 * t.sum| :=
            abs_add _ _
        _ ≤ 1 / 2 + (t.length : ℚ) / 2 := add_le_add ha ih
        _ = ((t.length : ℚ) + 1) / 2 := by ring
        _ = (((t.length + 1 : ℕ)) : ℚ) / 2 := by push_cast; ring

/-- At most three two-decimal roundings of values summing to 100 stay within
one hundredth of 100: the deviation is an integer number of hundredths and
is bounded by three half-hundredths, hence by one hundredth. -/
theorem sum_round2_near_100 (l : List ℚ) (hlen : l.length ≤ 3) (hsum : l.sum = 100) :
    |(l.map round2).sum - 100| ≤ 1 / 100 := by
  have hN := abs_sum_roundint_sub l
  rw [hsum] at hN
  have hlen3 : ((l.length : ℚ)) / 2 ≤ 3 / 2 := by
    have : (l.length : ℚ) ≤ 3 := by exact_mod_cast hlen
    linarith
  have hN2 : |(((l.map (fun p => round ((100 : ℚ) * p))).sum : ℤ) : ℚ) - 10000| ≤ 3 / 2 := by
    calc |(((l.map (fun p => round ((100 : ℚ) * p))).sum : ℤ) : ℚ) - 10000|
        = |(((l.map (fun p => round ((100 : ℚ) * p))).sum : ℤ) : ℚ) - 100 * 100| := by norm_num
      _ ≤ ((l.length : ℚ)) / 2 := hN
      _ ≤ 3 / 2 := hlen3
  set N : ℤ := (l.map (fun p => round ((100 : ℚ) * p))).sum with hNdef
  have hint : |N - 10000| ≤ 1 := by
    by_contra hc
    push_neg at hc
    have h2 : (2 : ℤ) ≤ |N - 10000| := hc
    have h2q : (2 : ℚ) ≤ |((N - 10000 : ℤ) : ℚ)| := by
      rw [← Int.cast_abs]
      exact_mod_cast h2
    have : |((N - 10000 : ℤ) : ℚ)| = |(N : ℚ) - 10000| := by push_cast; ring_nf
    linarith [hN2, this ▸ h2q]
  have hintq : |(N : ℚ) - 10000| ≤ 1 := by
    have : |((N - 10000 : ℤ) : ℚ)| ≤ 1 := by
      rw [← Int.cast_abs]
      exact_mod_cast hint
    calc |(N : ℚ) - 10000| = |((N - 10000 : ℤ) : ℚ)| := by push_cast; ring_nf
      _ ≤ 1 := this
  rw [sum_map_round2_eq, ← hNdef]
  have : (N : ℚ) / 100 - 100 = ((N : ℚ) - 10000) / 100 := by ring
  rw [this, abs_div, show |(100 : ℚ)| = 100 from by norm_num]
  linarith

/-- The three category values enumerated by the data model of the spec. -/
def specCategories : List String :=
  ["Development Activities", "Testing Activities", "Non-Development Activities"]

/-- C3 (amended): on every nonempty record set whose categories are among
the three enumerated ones and whose total hours are positive, the Percentage
column of `aggregate_by_category` sums to 100 up to one hundredth.  (The
positivity guard is necessary: see the zero-hours counterexample.) -/
theorem activity_distribution_percentages_sum (df : List WorkLogRecord)
    (hne : df ≠ [])
    (hcat : ∀ r ∈ df, r.category ∈ specCategories)
    (hpos : 0 < totalHoursOf df) :
    |((calculate_activity_distribution df).map (fun row => row.percentage)).sum - 100|
      ≤ 1 / 100 := by
  have htotpos : 0 < distTotal df := by rw [distTotal_eq]; exact hpos
  have hsort : ∀ (l : List DistributionRow) (le : DistributionRow → DistributionRow → Bool),
      ((l.mergeSort le).map (fun row => row.percentage)).sum
        = (l.map (fun row => row.percentage)).sum :=
    fun l le => ((List.mergeSort_perm l le).map (fun row => row.percentage)).sum_eq
  rw [calculate_activity_distribution_eq df hne]
  rw [hsort]
  rw [List.map_map]
  simp only [Function.comp_def]
  rw [List.map_congr_left (fun c _ => if_pos htotpos)]
  rw [show (categoriesOf df).map
      (fun c => round2 (categoryHours df c / distTotal df * 100))
      = ((categoriesOf df).map
        (fun c => categoryHours df c / distTotal df * 100)).map round2 from by
    rw [List.map_map]; rfl]
  apply sum_round2_near_100
  · rw [List.length_map]
    have hsub : categoriesOf df ⊆ specCategories := by
      intro c hc
      obtain ⟨r, hr, hrc⟩ := List.mem_map.mp (List.mem_dedup.mp hc)
      exact hrc ▸ hcat r hr
    have hle := ((List.nodup_dedup (df.map (fun r => r.category))).subperm hsub).length_le
    simpa [specCategories] using hle
  · have hpt : (categoriesOf df).map (fun c => categoryHours df c / distTotal df * 100)
        = (categoriesOf df).map (fun c => categoryHours df c * (100 / distTotal df)) := by
      refine List.map_congr_left (fun c _ => ?_)
      field_simp
    rw [hpt, sum_map_mul_right]
    rw [show ((categoriesOf df).map (fun c => categoryHours df c)).sum = distTotal df from rfl]
    field_simp

/-- Two-record frame of the spec example: one Development and one
Non-Development record of eight hours each. -/
def distExampleFrame : List WorkLogRecord :=
  [{ issue_key := "QA-10", project_key := "QA", summary := "feature work",
     issue_type := "Task", comment := none,
     category := "Development Activities", author := "bob", date := 0,
     time_spent_hours := 8, original_estimate := 0, time_spent := 0 },
   { issue_key := "QA-11", project_key := "QA", summary := "sprint retrospective",
     issue_type := "Task", comment := none,
     category := "Non-Development Activities", author := "amy", date := 0,
     time_spent_hours := 8, original_estimate := 0, time_spent := 0 }]

/-- Witness for C3 at the two-category example frame of the spec. -/
theorem activity_distribution_percentages_sum_witness :
    |((calculate_activity_distribution distExampleFrame).map
        (fun row => row.percentage)).sum - 100| ≤ 1 / 100 :=
  activity_distribution_percentages_sum distExampleFrame (by decide) (by decide)
    (by show (0 : ℚ) < 8 + (8 + 0); norm_num)

/-- Nonempty frame whose only record logs zero hours. -/
def zeroHoursFrame : List WorkLogRecord :=
  [{ issue_key := "QA-8", project_key := "QA", summary := "empty worklog",
     issue_type := "Task", comment := none,
     category := "Development Activities", author := "amy", date := 0,
     time_spent_hours := 0, original_estimate := 0, time_spent := 0 }]

/-- Counterexample to C3 as stated for every nonempty record set: on a
nonempty frame whose hours all equal 0, the guard `total_hours > 0` of line
54 writes 0 into every Percentage cell, so the percentages sum to 0, not to
100 ± 0.01. -/
theorem percentages_sum_zero_counterexample :
    zeroHoursFrame ≠ [] ∧
    ((calculate_activity_distribution zeroHoursFrame).map (fun row => row.percentage)).sum = 0 ∧
    ¬ |((calculate_activity_distribution zeroHoursFrame).map
        (fun row => row.percentage)).sum - 100| ≤ 1 / 100 := by
  have hcats : categoriesOf zeroHoursFrame = ["Development Activities"] := by decide
  have hhrs : categoryHours zeroHoursFrame "Development Activities" = 0 := by
    rw [categoryHours, show zeroHoursFrame.filter
        (fun r => r.category == "Development Activities") = zeroHoursFrame from by
      simp +decide [zeroHoursFrame, List.filter]]
    show (0 : ℚ) + 0 = 0
    norm_num
  have htot : distTotal zeroHoursFrame = 0 := by
    rw [distTotal, hcats, List.map_cons, List.map_nil, List.sum_cons, List.sum_nil, hhrs]
    norm_num
  have hval : ((calculate_activity_distribution zeroHoursFrame).map
      (fun row => row.percentage)).sum = 0 := by
    rw [calculate_activity_distribution_eq zeroHoursFrame (by decide), hcats]
    rw [List.map_cons, List.map_nil, htot]
    rw [if_neg (by norm_num : ¬ (0 : ℚ) < 0)]
    simp [List.mergeSort]
  refine ⟨by decide, hval, ?_⟩
  rw [hval]
  norm_num

/-- Example frame of the claim: two distinct authors and NDA hours summing
to sixteen. -/
def kpiExampleFrame : List WorkLogRecord :=
  [{ issue_key := "QA-1", project_key := "QA", summary := "sprint retrospective",
     issue_type := "Task", comment := none,
     category := "Non-Development Activities", author := "amy", date := 0,
     time_spent_hours := 16, original_estimate := 0, time_spent := 0 },
   { issue_key := "QA-2", project_key := "QA", summary := "feature work",
     issue_type := "Task", comment := none,
     category := "Development Activities", author := "bob", date := 0,
     time_spent_hours := 24, original_estimate := 0, time_spent := 0 }]

/-- Witness for C1 at the example of the claim: 2 authors, 20 working days
and 16 NDA hours give `total_md` 40, `nda_md` 2, `available_md` 38 and
`ratio_available_total` 95. -/
theorem advanced_kpis_formulas_witness :
    (calculate_advanced_kpis kpiExampleFrame 20).total_md = 40 ∧
    (calculate_advanced_kpis kpiExampleFrame 20).nda_md = 2 ∧
    (calculate_advanced_kpis kpiExampleFrame 20).available_md = 38 ∧
    (calculate_advanced_kpis kpiExampleFrame 20).ratio_available_total = 95 := by
  have h := advanced_kpis_formulas kpiExampleFrame 20 (by decide) (by decide)
  have hu : uniqueAuthors kpiExampleFrame = 2 := by decide
  have hn : ndaHoursOf kpiExampleFrame = 16 := by
    show colSum (kpiExampleFrame.filter isNDA) _ = 16
    rw [show kpiExampleFrame.filter isNDA = [kpiExampleFrame.head (by decide)] from by
      simp +decide [kpiExampleFrame, List.filter]]
    show (16 : ℚ) + 0 = 16
    norm_num
  refine ⟨h.1.trans ?_, h.2.1.trans ?_, h.2.2.1.trans ?_, h.2.2.2.trans ?_⟩
  · rw [hu]; norm_num
  · rw [hn]; rw [show (16 : ℚ) / 8 = ((2 : ℤ) : ℚ) by norm_num, round2_intCast]; norm_num
  · rw [hn, hu]
    rw [show ((2 : ℕ) : ℚ) * ((20 : ℤ) : ℚ) - (16 : ℚ) / 8 = ((38 : ℤ) : ℚ) by push_cast; norm_num]
    rw [round2_intCast]; norm_num
  · rw [hn, hu]
    rw [show (((2 : ℕ) : ℚ) * ((20 : ℤ) : ℚ) - (16 : ℚ) / 8) /
        (((2 : ℕ) : ℚ) * ((20 : ℤ) : ℚ)) * 100 = ((95 : ℤ) : ℚ) by push_cast; norm_num]
    rw [round2_intCast]; norm_num
